import Mathlib

/-!
Verification of the `comfyui_runway_gen3` plugin (`runway_nodes.py`) against its
natural-language specification.

The development shallowly embeds the two node classes:

* `RunwayVideoGenerator` — `encode_image`, `poll_status`, `generate_video`;
* `RunwayVideoPreview` — `preview_video`.

Network I/O is modelled by explicit environments: a polling run receives the
sequence of task-status responses as a function from the attempt index, and a
generation run receives the submission response and the status responses.

Time model for the polling loop: `time.time()` at entry is `0`, an HTTP request
and its processing are instantaneous, and `time.sleep(10)` advances the clock
by exactly `10`.  Wall-clock time is monotone.
-/

namespace RunwayGen3

/-- A task-status response body, as consumed by `poll_status`:
`result.get("status", "UNKNOWN")` reads the optional `status` field, and the
success branch tests `"output" in result and len(result["output"]) > 0`.
Only these two fields of the JSON object are ever inspected. -/
structure TaskResult where
  status : Option String
  output : Option (List String)
deriving DecidableEq, Repr

/-- Outcome of one GET of `/v1/tasks/{id}`: either a transport/HTTP failure
(`requests.get` raising, or `raise_for_status` on a non-2xx code), or a parsed
2xx JSON body. -/
inductive HttpResult where
  | err (msg : String)
  | ok (body : TaskResult)
deriving DecidableEq, Repr

/-- Result of a whole polling run.  `poll_status` has exactly two observable
exits: the `return result` on `SUCCEEDED` with a non-empty `output` list
(carrying `result["video_url"] = result["output"][0]`), and the
`raise RuntimeError(f"Timeout after {max_wait}s and {attempts} polling
attempts")` after the loop.  Both variants record the attempt counter and the
clock value at exit. -/
inductive PollOutcome where
  | success (videoUrl : String) (attempts : Nat) (finish : Int)
  | timeout (maxWait : Int) (attempts : Nat) (finish : Int)
deriving DecidableEq, Repr

/-- The attempt counter carried by either exit of the loop. -/
def PollOutcome.attemptCount : PollOutcome → Nat
  | .success _ a _ => a
  | .timeout _ a _ => a

/-- The clock value at which the loop exited. -/
def PollOutcome.finishTime : PollOutcome → Int
  | .success _ _ t => t
  | .timeout _ _ t => t

/-- Whether the run ended in the timeout `RuntimeError`. -/
def PollOutcome.isTimeout : PollOutcome → Bool
  | .success _ _ _ => false
  | .timeout _ _ _ => true

/-- One loop body of `poll_status`, lines 59–84 of `runway_nodes.py`.
Returns `some url` exactly when the body executes `return result` (status
`"SUCCEEDED"` with a non-empty `output` list); `none` when the body falls
through to the next iteration after `time.sleep(10)`.

Note the `FAILED`/`CANCELED` branch: the `raise RuntimeError(f"Task failed:
...")` on line 77 sits inside the `try:` block whose handler
`except Exception as e` on line 80 catches every `Exception` — `RuntimeError`
included — logs it, sleeps 10 s and lets the loop continue.  Observably the
branch therefore does NOT terminate the loop, exactly like a transport error
or any other non-success status. -/
def pollStep (r : HttpResult) : Option String :=
  match r with
  | .err _ => none
  | .ok body =>
    let status := body.status.getD "UNKNOWN"
    if status = "SUCCEEDED" then
      match body.output with
      | some (u :: _) => some u
      | _ => none
    else if status = "FAILED" ∨ status = "CANCELED" then
      -- the RuntimeError raised here is swallowed by the blanket
      -- `except Exception` handler of the same try-block: continue polling
      none
    else
      none

/-- The `while time.time() < end_time` loop of `poll_status`, with `t` the
current clock relative to `start_time` and `attempts` the counter.  Each
iteration increments `attempts`, issues the GET for attempt index `attempts`
(0-based), and either returns or sleeps 10 s. -/
def pollAux (resp : Nat → HttpResult) (maxWait : Int) (t : Int) (attempts : Nat) :
    PollOutcome :=
  if _h : t < maxWait then
    match pollStep (resp attempts) with
    | some url => .success url (attempts + 1) t
    | none => pollAux resp maxWait (t + 10) (attempts + 1)
  else
    .timeout maxWait attempts t
termination_by (maxWait - t).toNat
decreasing_by
  simp_wf
  omega

/-- `poll_status(task_id, api_key, max_wait)`: run the loop from clock `0`
with the attempt counter at `0`.  `resp n` is the outcome of the `n`-th status
request (0-based). -/
def poll_status (resp : Nat → HttpResult) (max_wait : Int) : PollOutcome :=
  pollAux resp max_wait 0 0

/-! ### Base64 (RFC 4648), as performed by `base64.b64encode(...).decode()` -/

/-- The base64 alphabet. -/
def b64Alphabet : List Char :=
  "ABCDEFGHIJKLMNOPQRSTUVWXYZabcdefghijklmnopqrstuvwxyz0123456789+/".toList

/-- Character for a 6-bit group (the argument is reduced mod 64; the encoder
only ever passes values below 64). -/
def b64Char (n : Nat) : Char :=
  b64Alphabet.getD (n % 64) 'A'

/-- Index of a character in the base64 alphabet, `none` for a non-alphabet
character such as the `'='` pad. -/
def b64Index (c : Char) : Option Nat :=
  b64Alphabet.findIdx? (fun x => x = c)

/-- Base64 encoding of a byte sequence, three bytes to four characters with
`'='` padding; inputs are reduced mod 256 (a byte string holds bytes). -/
def base64encodeList : List Nat → List Char
  | [] => []
  | [a] =>
    let a' := a % 256
    [b64Char (a' / 4), b64Char (a' % 4 * 16), '=', '=']
  | [a, b] =>
    let a' := a % 256
    let b' := b % 256
    [b64Char (a' / 4), b64Char (a' % 4 * 16 + b' / 16), b64Char (b' % 16 * 4), '=']
  | a :: b :: c :: rest =>
    let a' := a % 256
    let b' := b % 256
    let c' := c % 256
    b64Char (a' / 4) :: b64Char (a' % 4 * 16 + b' / 16) ::
      b64Char (b' % 16 * 4 + c' / 64) :: b64Char (c' % 64) :: base64encodeList rest

/-- Base64 decoding, the left inverse of `base64encodeList`; `none` on any
malformed input. -/
def base64decodeList : List Char → Option (List Nat)
  | [] => some []
  | c1 :: c2 :: c3 :: c4 :: rest =>
    if c3 = '=' then
      if c4 = '=' ∧ rest = [] then
        match b64Index c1, b64Index c2 with
        | some n1, some n2 =>
          if n2 % 16 = 0 then some [n1 * 4 + n2 / 16] else none
        | _, _ => none
      else none
    else if c4 = '=' then
      if rest = [] then
        match b64Index c1, b64Index c2, b64Index c3 with
        | some n1, some n2, some n3 =>
          if n3 % 4 = 0 then
            some [n1 * 4 + n2 / 16, n2 % 16 * 16 + n3 / 4]
          else none
        | _, _, _ => none
      else none
    else
      match b64Index c1, b64Index c2, b64Index c3, b64Index c4,
          base64decodeList rest with
      | some n1, some n2, some n3, some n4, some tail =>
        some ((n1 * 4 + n2 / 16) :: (n2 % 16 * 16 + n3 / 4) ::
          (n3 % 4 * 64 + n4) :: tail)
      | _, _, _, _, _ => none
  | _ => none

/-- String-level base64 encoder (`base64.b64encode(bytes).decode()`). -/
def base64encode (bytes : List Nat) : String :=
  String.mk (base64encodeList bytes)

/-- String-level base64 decoder. -/
def base64decode (s : String) : Option (List Nat) :=
  base64decodeList s.data

/-! ### Images and `encode_image` -/

/-- An in-memory image buffer: spatial dimensions plus pixel data.  The host
hands `generate_video` a tensor; `encode_image` normalises it to an 8-bit PIL
image (`squeeze(0)`, `(image * 255).byte()`, `Image.fromarray`), a
representation change that keeps the pixel grid.  The model keeps one buffer
type and treats that normalisation as the identity on the buffer. -/
structure ImageBuf where
  width : Nat
  height : Nat
  pixels : List Nat
deriving DecidableEq, Repr

/-- `image.resize(target_size, Image.Resampling.LANCZOS)`: the output has
exactly the target dimensions.  Lanczos resampling of the pixel values is
internal to PIL (outside this repository); the model records the dimension
change and carries the source pixel data through. -/
def ImageBuf.resize (img : ImageBuf) (target : Nat × Nat) : ImageBuf :=
  ⟨target.1, target.2, img.pixels⟩

/-- Modelled JPEG stream header: the SOI marker bytes `FF D8` followed by the
image dimensions (big-endian 16-bit each), which a JPEG stream determines. -/
def jpegHeader (w h : Nat) : List Nat :=
  [255, 216, w / 256, w % 256, h / 256, h % 256]

/-- `image.save(buffered, format="JPEG", quality=q)`: the byte stream of the
JPEG codec is external to this repository; the model records what the stream
determines — the dimensions (header), the quality setting, and the pixel data
as bytes. -/
def ImageBuf.save (img : ImageBuf) (quality : Nat) : List Nat :=
  jpegHeader img.width img.height ++ quality % 256 :: img.pixels.map (· % 256)

/-- Dimensions encoded in a (modelled) JPEG stream, `none` if the stream does
not start with a JPEG header. -/
def jpegSize (bytes : List Nat) : Option (Nat × Nat) :=
  match bytes with
  | 255 :: 216 :: w1 :: w2 :: h1 :: h2 :: _ => some (w1 * 256 + w2, h1 * 256 + h2)
  | _ => none

/-- `RunwayVideoGenerator.encode_image` (lines 35–46): resize to the fixed
`target_size = (384, 384)`, save as JPEG at quality 30, base64-encode.  The
return value is the bare base64 text — the `data:image/jpeg;base64,` prefix is
NOT added here. -/
def encode_image (image : ImageBuf) : String :=
  let target_size : Nat × Nat := (384, 384)
  let resized := image.resize target_size
  base64encode (resized.save 30)

/-- The data URI built at the call sites in `generate_video`, lines 94 and 98:
`f"data:image/jpeg;base64,{self.encode_image(frame)}"`. -/
def mkDataUri (img : ImageBuf) : String :=
  "data:image/jpeg;base64," ++ encode_image img

/-! ### `generate_video` -/

/-- One entry of the `promptImage` list of the submission payload. -/
structure PromptImage where
  uri : String
  position : String
deriving DecidableEq, Repr

/-- The JSON payload POSTed to `/v1/image_to_video` (lines 103–111). -/
structure GenPayload where
  promptImage : List PromptImage
  promptText : String
  model : String
  duration : Int
  ratio : String
  seed : Int
  watermark : Bool
deriving DecidableEq, Repr

/-- The 2xx JSON body of the submission response; `generate_video` reads only
the optional `id` field (`initial_result.get("id")`). -/
structure SubmitBody where
  id : Option String
deriving DecidableEq, Repr

/-- Outcome of the POST to `/v1/image_to_video`: either a
`requests.exceptions.RequestException` (connection failure, or
`raise_for_status` on a non-2xx response) or a parsed 2xx body. -/
inductive SubmitResponse where
  | err (msg : String)
  | ok (body : SubmitBody)
deriving DecidableEq, Repr

/-- The network environment of one `generate_video` call: the submission
response as a function of the payload sent, and the task-status responses as a
function of the task id and the attempt index. -/
structure GenEnv where
  submit : GenPayload → SubmitResponse
  taskStatus : String → Nat → HttpResult

/-- The errors `generate_video` can raise to the host.

* `apiError`: the `RequestException` from the POST is caught on line 140 and
  re-raised as `RuntimeError(f"Runway API error: ...")`;
* `noTaskId`: `raise RuntimeError("No task ID in response")` on line 133 — a
  `RuntimeError` is not a `RequestException`, so it propagates;
* `pollTimeout`: the timeout `RuntimeError` of `poll_status` propagates for
  the same reason, carrying the wait bound and the attempt count. -/
inductive GenError where
  | apiError (msg : String)
  | noTaskId
  | pollTimeout (maxWait : Int) (attempts : Nat)
deriving DecidableEq, Repr

/-- `RunwayVideoGenerator.generate_video` (lines 88–142).  The value is the
returned `(video_url, generation_id, preview)` triple or the raised error,
paired with the number of POST (submission) requests and the number of GET
(task-status) requests issued. -/
def generate_video (env : GenEnv) (first_frame last_frame : ImageBuf)
    (promptText model : String) (duration : Int) ( ratio : String) (seed : Int)
    (watermark : Bool) (api_key : String) (trigger : Bool) (max_wait : Int) :
    Except GenError (String × String × ImageBuf) × Nat × Nat :=
  if trigger = false then
    -- line 90: `return ("", "", first_frame)` — no request of any kind
    (.ok ("", "", first_frame), 0, 0)
  else
    let prompt_images : List PromptImage :=
      [⟨mkDataUri first_frame, "first"⟩, ⟨mkDataUri last_frame, "last"⟩]
    let payload : GenPayload :=
      ⟨prompt_images, promptText, model, duration, ratio, seed, watermark⟩
    -- the POST carries `api_key` in the Authorization header; the transport
    -- itself is the environment
    let _authHeader := "Bearer " ++ api_key
    match env.submit payload with
    | .err msg => (.error (.apiError msg), 1, 0)
    | .ok body =>
      let task_id := body.id.getD ""
      -- line 132: `if not task_id` — `None` and `""` are both falsy
      if task_id = "" then (.error .noTaskId, 1, 0)
      else
        match poll_status (env.taskStatus task_id) max_wait with
        | .success url attempts _t =>
          -- line 136: `final_result.get("video_url", "")` — set on success
          (.ok (url, task_id, first_frame), 1, attempts)
        | .timeout mw attempts _f =>
          (.error (.pollTimeout mw attempts), 1, attempts)

/-! ### `RunwayVideoPreview.preview_video` -/

/-- The shape of a `preview_video` return value.  Python distinguishes the
parenthesised string `("")` on line 162 — which is just the string `""`, not a
tuple — from the 1-tuples `(save_path,)` and `(video_url,)` on lines 173, 176
and 177. -/
inductive PreviewReturn where
  | bare (s : String)
  | tuple1 (s : String)
deriving DecidableEq, Repr

/-- The string payload carried by either return shape. -/
def PreviewReturn.val : PreviewReturn → String
  | .bare s => s
  | .tuple1 s => s

/-- Whether the return value is a 1-tuple. -/
def PreviewReturn.isTuple : PreviewReturn → Bool
  | .bare _ => false
  | .tuple1 _ => true

/-- `RunwayVideoPreview.preview_video` (lines 160–177).  `fetch url` is the
combined outcome of `requests.get(video_url)`, `raise_for_status()` and the
file write — the whole body of the `try:` block; all of its failure modes are
caught by `except Exception` on line 174, which returns `(video_url,)`, so the
function never raises (its model has a total return type).  The second
component counts download GET requests. -/
def preview_video (fetch : String → Except String Unit) (video_url : String)
    (download : Bool) (filename : String) : PreviewReturn × Nat :=
  if video_url = "" then
    -- line 162: `return ("")` — a parenthesised string, not a tuple
    (.bare "", 0)
  else if download then
    let save_path := "output/" ++ filename  -- os.path.join("output", filename)
    match fetch video_url with
    | .ok _ => (.tuple1 save_path, 1)
    | .error _ => (.tuple1 video_url, 1)
  else
    (.tuple1 video_url, 0)

/-! ### Lemmas about the base64 codec -/

lemma b64Char_mod (n : Nat) : b64Char (n % 64) = b64Char n := by
  unfold b64Char
  congr 1
  omega

lemma b64Index_b64Char_fin : ∀ m : Fin 64, b64Index (b64Char m.val) = some m.val := by
  decide

lemma b64Index_b64Char (n : Nat) : b64Index (b64Char n) = some (n % 64) := by
  have h64 : n % 64 < 64 := Nat.mod_lt _ (by norm_num)
  have h := b64Index_b64Char_fin ⟨n % 64, h64⟩
  rw [← b64Char_mod n]
  exact h

lemma b64Char_ne_pad_fin : ∀ m : Fin 64, ¬ b64Char m.val = '=' := by
  decide

lemma b64Char_ne_pad (n : Nat) : ¬ b64Char n = '=' := by
  have h64 : n % 64 < 64 := Nat.mod_lt _ (by norm_num)
  rw [← b64Char_mod n]
  exact b64Char_ne_pad_fin ⟨n % 64, h64⟩

/-- Decoding inverts encoding; the encoder reduces its input bytes mod 256. -/
theorem base64_roundtrip (l : List Nat) :
    base64decodeList (base64encodeList l) = some (l.map (· % 256)) :=
  match l with
  | [] => by simp [base64encodeList, base64decodeList]
  | [a] => by
    have h1 := b64Index_b64Char (a % 256 / 4)
    have h2 := b64Index_b64Char (a % 256 % 4 * 16)
    have e1 : a % 256 / 4 % 64 = a % 256 / 4 := by omega
    have e2 : a % 256 % 4 * 16 % 64 = a % 256 % 4 * 16 := by omega
    rw [e1] at h1
    rw [e2] at h2
    have h3 : a % 256 % 4 * 16 % 16 = 0 := by omega
    simp [base64encodeList, base64decodeList, h1, h2, h3]
    omega
  | [a, b] => by
    have h1 := b64Index_b64Char (a % 256 / 4)
    have h2 := b64Index_b64Char (a % 256 % 4 * 16 + b % 256 / 16)
    have h3 := b64Index_b64Char (b % 256 % 16 * 4)
    have e1 : a % 256 / 4 % 64 = a % 256 / 4 := by omega
    have e2 : (a % 256 % 4 * 16 + b % 256 / 16) % 64 =
        a % 256 % 4 * 16 + b % 256 / 16 := by omega
    have e3 : b % 256 % 16 * 4 % 64 = b % 256 % 16 * 4 := by omega
    rw [e1] at h1
    rw [e2] at h2
    rw [e3] at h3
    have hne : ¬ b64Char (b % 256 % 16 * 4) = '=' := b64Char_ne_pad _
    have h4 : b % 256 % 16 * 4 % 4 = 0 := by omega
    simp [base64encodeList, base64decodeList, h1, h2, h3, hne, h4]
    omega
  | a :: b :: c :: d :: rest => by
    have ih := base64_roundtrip (d :: rest)
    have h1 := b64Index_b64Char (a % 256 / 4)
    have h2 := b64Index_b64Char (a % 256 % 4 * 16 + b % 256 / 16)
    have h3 := b64Index_b64Char (b % 256 % 16 * 4 + c % 256 / 64)
    have h4 := b64Index_b64Char (c % 256 % 64)
    have e1 : a % 256 / 4 % 64 = a % 256 / 4 := by omega
    have e2 : (a % 256 % 4 * 16 + b % 256 / 16) % 64 =
        a % 256 % 4 * 16 + b % 256 / 16 := by omega
    have e3 : (b % 256 % 16 * 4 + c % 256 / 64) % 64 =
        b % 256 % 16 * 4 + c % 256 / 64 := by omega
    have e4 : c % 256 % 64 % 64 = c % 256 % 64 := by omega
    rw [e1] at h1
    rw [e2] at h2
    rw [e3] at h3
    rw [e4] at h4
    have hne3 : ¬ b64Char (b % 256 % 16 * 4 + c % 256 / 64) = '=' := b64Char_ne_pad _
    have hne4 : ¬ b64Char (c % 256 % 64) = '=' := b64Char_ne_pad _
    simp only [base64encodeList, base64decodeList]
    rw [if_neg hne3, if_neg hne4, h1, h2, h3, h4, ih]
    simp
    omega
  | [a, b, c] => by
    have h1 := b64Index_b64Char (a % 256 / 4)
    have h2 := b64Index_b64Char (a % 256 % 4 * 16 + b % 256 / 16)
    have h3 := b64Index_b64Char (b % 256 % 16 * 4 + c % 256 / 64)
    have h4 := b64Index_b64Char (c % 256 % 64)
    have e1 : a % 256 / 4 % 64 = a % 256 / 4 := by omega
    have e2 : (a % 256 % 4 * 16 + b % 256 / 16) % 64 =
        a % 256 % 4 * 16 + b % 256 / 16 := by omega
    have e3 : (b % 256 % 16 * 4 + c % 256 / 64) % 64 =
        b % 256 % 16 * 4 + c % 256 / 64 := by omega
    have e4 : c % 256 % 64 % 64 = c % 256 % 64 := by omega
    rw [e1] at h1
    rw [e2] at h2
    rw [e3] at h3
    rw [e4] at h4
    have hne3 : ¬ b64Char (b % 256 % 16 * 4 + c % 256 / 64) = '=' := b64Char_ne_pad _
    have hne4 : ¬ b64Char (c % 256 % 64) = '=' := b64Char_ne_pad _
    simp only [base64encodeList, base64decodeList]
    rw [if_neg hne3, if_neg hne4, h1, h2, h3, h4]
    simp [base64decodeList]
    omega

/-- String-level round trip. -/
theorem base64decode_encode (bytes : List Nat) :
    base64decode (base64encode bytes) = some (bytes.map (· % 256)) :=
  base64_roundtrip bytes

/-- The modelled JPEG stream of a resized-to-384×384 image is already a byte
string (every entry below 256), so reducing mod 256 is the identity on it. -/
lemma save_resize_bytes (img : ImageBuf) :
    ((img.resize (384, 384)).save 30).map (· % 256) =
      (img.resize (384, 384)).save 30 := by
  have hmm : ∀ x : Nat, x % 256 % 256 = x % 256 := fun x => by omega
  simp [ImageBuf.save, ImageBuf.resize, jpegHeader, List.map_map, Function.comp,
    hmm]

/-! ### Lemmas about the polling loop -/

/-- A loop iteration whose body falls through to `time.sleep(10)`. -/
lemma pollAux_cont (resp : Nat → HttpResult) (mw t : Int) (a : Nat)
    (hlt : t < mw) (hstep : pollStep (resp a) = none) :
    pollAux resp mw t a = pollAux resp mw (t + 10) (a + 1) := by
  rw [pollAux.eq_def, dif_pos hlt, hstep]

/-- A loop iteration whose body executes `return result`. -/
lemma pollAux_ret (resp : Nat → HttpResult) (mw t : Int) (a : Nat) (u : String)
    (hlt : t < mw) (hstep : pollStep (resp a) = some u) :
    pollAux resp mw t a = .success u (a + 1) t := by
  rw [pollAux.eq_def, dif_pos hlt, hstep]

/-- If the loop is entered at a clock value below `deadline + 10`, a timeout
exit also happens below `deadline + 10`: the loop condition admits entry only
below the deadline and one iteration advances the clock by exactly 10. -/
theorem pollAux_timeout_bound (resp : Nat → HttpResult) (mw t : Int) (a n : Nat)
    (m f : Int) (ht : t < mw + 10)
    (h : pollAux resp mw t a = .timeout m n f) : f < mw + 10 := by
  rw [pollAux.eq_def] at h
  split at h
  next hlt =>
    split at h
    next => exact absurd h (by simp)
    next => exact pollAux_timeout_bound resp mw (t + 10) (a + 1) n m f (by omega) h
  next hge =>
    injection h with h1 h2 h3
    omega
termination_by (mw - t).toNat
decreasing_by omega

/-! ## The claims -/

/-- **C1** (code bug).  The claim says a `FAILED` (or `CANCELED`) status makes
`poll_status` raise a fatal TaskError on the first observation, with no
further status requests.  The code does intend this — line 77 raises
`RuntimeError(f"Task failed: ...")` — but the raise sits inside the `try:`
block whose handler `except Exception as e` (line 80) catches every
`Exception`, `RuntimeError` included, sleeps 10 s, and continues the loop.
Evaluated here: with every status response `FAILED` and `max_wait = 25`, the
run performs **3** status requests (not 1) and ends in the *timeout* error at
clock 30, never in a task error. -/
theorem C1_failed_status_is_swallowed_and_retried :
    poll_status (fun _ => .ok ⟨some "FAILED", none⟩) 25 =
      .timeout 25 3 30 := by
  simp [poll_status, pollAux, pollStep]

/-- **C2**.  With `trigger` false, `generate_video` returns
`("", "", first_frame)` — the literal empty strings and the *input* first
frame — and issues no POST and no GET (both request counters are `0`). -/
theorem C2_trigger_false_skips_without_network (env : GenEnv)
    (first_frame last_frame : ImageBuf) (promptText model : String)
    (duration : Int) ( ratio : String) (seed : Int) (watermark : Bool)
    (api_key : String) (max_wait : Int) :
    generate_video env first_frame last_frame promptText model duration ratio
      seed watermark api_key false max_wait =
      (.ok ("", "", first_frame), 0, 0) := rfl

/-- **C3**.  If every 2xx submission response lacks a non-empty `"id"` field
(`initial_result.get("id")` is `None` or `""`, both falsy on line 132),
`generate_video` raises the fatal `RuntimeError("No task ID in response")` —
which, not being a `RequestException`, escapes the `except` clause — and the
task-status request counter stays `0`: `poll_status` is never reached. -/
theorem C3_missing_task_id_fails_without_polling
    (submit : GenPayload → SubmitResponse) (ts : String → Nat → HttpResult)
    (first_frame last_frame : ImageBuf) (promptText model : String)
    (duration : Int) ( ratio : String) (seed : Int) (watermark : Bool)
    (api_key : String) (max_wait : Int)
    (hsub : ∀ p, ∃ body, submit p = .ok body ∧ body.id.getD "" = "") :
    generate_video ⟨submit, ts⟩ first_frame last_frame promptText model
      duration ratio seed watermark api_key true max_wait =
      (.error .noTaskId, 1, 0) := by
  obtain ⟨body, hb, hid⟩ := hsub
    ⟨[⟨mkDataUri first_frame, "first"⟩, ⟨mkDataUri last_frame, "last"⟩],
      promptText, model, duration, ratio, seed, watermark⟩
  simp [generate_video, hb, hid]

/-- Witness for C3: a concrete environment whose submission response is 2xx
with no `id` field. -/
theorem C3_missing_task_id_witness :
    generate_video ⟨fun _ => .ok ⟨none⟩, fun _ _ => .err "down"⟩
      ⟨1, 1, [0]⟩ ⟨1, 1, [0]⟩ "A cinematic scene" "gen3a_turbo" 5 "1280:768"
      0 false "YOUR_RUNWAY_API_KEY" true 60 = (.error .noTaskId, 1, 0) :=
  C3_missing_task_id_fails_without_polling _ _ _ _ _ _ _ _ _ _ _ _
    (fun _ => ⟨⟨none⟩, rfl, rfl⟩)

/-- The status-response sequence of C4: two `RUNNING` responses, then
`SUCCEEDED` with `output = ["https://x/video.mp4"]`. -/
def c4resp : Nat → HttpResult := fun n =>
  if n < 2 then .ok ⟨some "RUNNING", none⟩
  else .ok ⟨some "SUCCEEDED", some ["https://x/video.mp4"]⟩

/-- **C4**.  On the sequence [RUNNING, RUNNING, SUCCEEDED(["https://x/video.mp4"])],
whenever the deadline leaves room for the two 10-second sleeps
(`max_wait > 20`), `poll_status` returns `video_url = "https://x/video.mp4"`
after exactly 3 status checks, at clock 20. -/
theorem C4_three_checks_then_success (max_wait : Int) (h : 20 < max_wait) :
    poll_status c4resp max_wait = .success "https://x/video.mp4" 3 20 := by
  unfold poll_status
  rw [pollAux_cont _ _ _ _ (by omega) (by simp [c4resp, pollStep])]
  rw [pollAux_cont _ _ _ _ (by omega) (by simp [c4resp, pollStep])]
  rw [pollAux_ret _ _ _ _ "https://x/video.mp4" (by omega)
    (by simp [c4resp, pollStep])]
  norm_num

/-- Witness for C4 at `max_wait = 60` (the node's default). -/
theorem C4_three_checks_witness :
    (20 : Int) < 60 ∧
      poll_status c4resp 60 = .success "https://x/video.mp4" 3 20 :=
  ⟨by norm_num, C4_three_checks_then_success 60 (by norm_num)⟩

/-- **C5**.  With `download` false, `preview_video` makes no HTTP request and
the returned value carries `video_url` unchanged (for an empty url the bare
string `""`, otherwise the 1-tuple `(video_url,)` — see C9 for the shape). -/
theorem C5_no_download_returns_url_unchanged
    (fetch : String → Except String Unit) (video_url filename : String) :
    (preview_video fetch video_url false filename).1.val = video_url ∧
    (preview_video fetch video_url false filename).2 = 0 := by
  by_cases h : video_url = ""
  · subst h
    exact ⟨rfl, rfl⟩
  · simp [preview_video, h, PreviewReturn.val]

/-- **C6**.  With `download` true and a non-empty url, when the GET / status
check / file write fails, the blanket `except Exception` (line 174) returns
`(video_url,)` — the original url — and no exception escapes (`preview_video`
is modelled with a total return type precisely because every failure of the
`try:` body is caught). -/
theorem C6_failed_download_falls_back_to_url
    (fetch : String → Except String Unit) (video_url filename msg : String)
    (hne : video_url ≠ "") (hf : fetch video_url = .error msg) :
    preview_video fetch video_url true filename = (.tuple1 video_url, 1) := by
  simp [preview_video, hne, hf]

/-- Witness for C6: a concrete failing GET. -/
theorem C6_failed_download_witness :
    preview_video (fun _ => .error "connection reset") "https://x/video.mp4"
      true "runway_video.mp4" = (.tuple1 "https://x/video.mp4", 1) :=
  C6_failed_download_falls_back_to_url _ _ _ "connection reset" (by decide) rfl

/-- **C7, counterexample**.  The claim says the output of `encode_image` is a
string of the form `data:image/jpeg;base64,...`.  It is not: `encode_image`
returns the bare base64 text (line 46), and the prefix is added only at the
call sites in `generate_video` (lines 94, 98).  At the concrete 2×2 input
image with pixel bytes `[10, 20, 30, 40]`, the prefix
`data:image/jpeg;base64,` is not a prefix of the output. -/
theorem C7_encode_output_lacks_data_uri_prefix :
    ("data:image/jpeg;base64,".data.isPrefixOf
      (encode_image ⟨2, 2, [10, 20, 30, 40]⟩).data) = false := by
  decide

/-- **C7, amended**.  For every input image: the output of `encode_image`
base64-decodes to the modelled JPEG stream of the image resized to exactly
384×384 (saved at quality 30); that stream's recorded resolution is exactly
384×384; and the `data:image/jpeg;base64,...` URI of the claim is formed at
the call site (`mkDataUri`) by prefixing `encode_image`'s output. -/
theorem C7_amended_resized_jpeg_data_uri (img : ImageBuf) :
    base64decode (encode_image img) = some ((img.resize (384, 384)).save 30) ∧
    jpegSize ((img.resize (384, 384)).save 30) = some (384, 384) ∧
    mkDataUri img = "data:image/jpeg;base64," ++ encode_image img := by
  refine ⟨?_, ?_, rfl⟩
  · show base64decode (base64encode ((img.resize (384, 384)).save 30)) = _
    rw [base64decode_encode, save_resize_bytes]
  · simp [ImageBuf.resize, ImageBuf.save, jpegHeader, jpegSize]

/-- **C8**.  For a non-negative deadline, if a polling run never reaches
terminal success, it terminates by raising the timeout `RuntimeError`
(line 86) — whose attempt count is the `attempts` field of the outcome — and
the exit happens within `max_wait + 10` seconds of the start (the final
`time.sleep(10)` may overshoot the deadline by at most one period). -/
theorem C8_timeout_within_deadline_plus_ten (resp : Nat → HttpResult)
    (max_wait : Int) (hmw : 0 ≤ max_wait)
    (hns : ∀ u n f, poll_status resp max_wait ≠ .success u n f) :
    (poll_status resp max_wait).isTimeout = true ∧
    (poll_status resp max_wait).finishTime ≤ max_wait + 10 := by
  cases hout : poll_status resp max_wait with
  | success u n f => exact absurd hout (hns u n f)
  | timeout m n f =>
    have h' : pollAux resp max_wait 0 0 = .timeout m n f := hout
    have hb : f < max_wait + 10 :=
      pollAux_timeout_bound resp max_wait 0 0 n m f (by omega) h'
    refine ⟨rfl, ?_⟩
    show f ≤ max_wait + 10
    omega

/-- Witness for C8: a run that only ever sees `RUNNING`. -/
theorem C8_timeout_witness :
    (poll_status (fun _ => .ok ⟨some "RUNNING", none⟩) 25).isTimeout = true ∧
    (poll_status (fun _ => .ok ⟨some "RUNNING", none⟩) 25).finishTime ≤ 25 + 10 :=
  C8_timeout_within_deadline_plus_ten _ 25 (by norm_num)
    (by
      intro u n f h
      have he : poll_status (fun _ => .ok ⟨some "RUNNING", none⟩) 25 =
          .timeout 25 3 30 := by
        simp [poll_status, pollAux, pollStep]
      rw [he] at h
      exact PollOutcome.noConfusion h)

/-- **C9**.  With an empty `video_url`, `preview_video` returns the *bare*
string `""` (line 162 reads `return ("")`, a parenthesised string, not a
tuple) and performs no download even when `download` is true; every other
return path yields a 1-tuple. -/
theorem C9_empty_url_returns_bare_string (fetch : String → Except String Unit)
    (download : Bool) (filename : String) :
    preview_video fetch "" download filename = (.bare "", 0) ∧
    ∀ url, url ≠ "" →
      (preview_video fetch url download filename).1.isTuple = true := by
  constructor
  · simp [preview_video]
  · intro url hu
    unfold preview_video
    rw [if_neg hu]
    cases download with
    | false => simp [PreviewReturn.isTuple]
    | true =>
      cases hf : fetch url <;> simp [PreviewReturn.isTuple, hf]

/-- Witness for C9: concrete empty and non-empty urls under `download=true`. -/
theorem C9_empty_url_witness :
    preview_video (fun _ => .error "e") "" true "runway_video.mp4" =
      (.bare "", 0) ∧
    (preview_video (fun _ => .error "e") "https://v" true
      "runway_video.mp4").1.isTuple = true :=
  ⟨(C9_empty_url_returns_bare_string _ true _).1,
    (C9_empty_url_returns_bare_string _ true _).2 "https://v" (by decide)⟩

/-- **C10**.  With `max_wait ≤ 0`, the loop condition
`time.time() < end_time` is false at the very first check (`end_time =
start_time + max_wait ≤ start_time`), so `poll_status` raises the timeout
`RuntimeError` immediately: zero attempts, zero elapsed time, and — since the
loop body never runs — no status request at all. -/
theorem C10_nonpositive_wait_times_out_immediately (resp : Nat → HttpResult)
    (max_wait : Int) (h : max_wait ≤ 0) :
    poll_status resp max_wait = .timeout max_wait 0 0 := by
  unfold poll_status
  rw [pollAux.eq_def, dif_neg (by omega : ¬ (0 : Int) < max_wait)]

/-- Witness for C10 at `max_wait = 0`. -/
theorem C10_nonpositive_wait_witness :
    (0 : Int) ≤ 0 ∧
      poll_status (fun _ => .err "unreachable") 0 = .timeout 0 0 0 :=
  ⟨le_refl 0, C10_nonpositive_wait_times_out_immediately _ 0 (le_refl 0)⟩

end RunwayGen3
